import Mathlib

/-!
Verification of the fundamental scoring & forecast engine of
`stock_analyzer.py` (the YnotAI stock analyzer).

The Python source is shallowly embedded here:
* scalar quote fields (`info.get(...)`) become `Option ℚ` (a `none` is a
  missing dictionary key / `None`);
* pandas statement rows become `Option (List ℚ)` (the row is absent from the
  DataFrame index, or present with its values newest-first, as delivered);
* Python truthiness of a number (`if pe and pe < 30`) is `v ≠ 0` on the
  unwrapped value;
* a computation inside a `try: ... except:` block is written in the `Except`
  monad and the handler applied at the end;
* the one fractional power (`** (1/(len-1))`) is modelled over `ℝ`; a
  fractional power of a negative base yields a complex number in Python whose
  later `>=` comparison raises `TypeError`, which the surrounding bare
  `except` catches — that path is the `.error` branch of the embedding.

Display strings such as `f"{pe:.2f}"` are modelled by the constructor-tagged
type `PyVal`, whose `na` constructor is the literal string `"N/A"` and `errv`
the literal `"Error"`; numeric constructors record which format string is
applied to which value (digit-level rendering carries no information used by
any theorem in this file).
-/

namespace StockAnalyzer

/-- The display value placed in a check's `val` field.  `na` renders as the
string `"N/A"`, `errv` as `"Error"`, `pos` as `"Positive"`, `neg` as
`"Negative"`; the numeric constructors record the format applied:
`cagrPct base k` = `f"{cagr:.2%}"` where `cagr` is the real number
`base ** (1/k) - 1` computed by the revenue-growth check, `pct2 x` =
`f"{x:.2%}"`, `f2 x` = `f"{x:.2f}"`, `raw x` = `f"{x}"`,
`pct1 x` = `f"{x:.1%}"`, `plusPct1 x` = `f"+{x:.1%}"`, and
`days x` = `f"{int(x)} days"`. -/
inductive PyVal where
  | na
  | errv
  | pos
  | neg
  | cagrPct (base : ℚ) (k : ℕ)
  | pct2 (x : ℚ)
  | f2 (x : ℚ)
  | raw (x : ℚ)
  | pct1 (x : ℚ)
  | plusPct1 (x : ℚ)
  | days (x : ℚ)
deriving DecidableEq

/-- One entry of the `results` list built by `run_pro_analysis`: the dict
`{"step": ..., "status": ..., "val": ..., "english": ...}`.  The code only
ever writes the strings `"PASS"` and `"FAIL"` into `status`. -/
structure Check where
  step : String
  status : String
  val : PyVal
  english : String
deriving DecidableEq

/-- The scalar quote fields of `stock.info` read by the analysis. -/
structure Info where
  trailingPE : Option ℚ
  returnOnEquity : Option ℚ
  debtToEquity : Option ℚ
  freeCashflow : Option ℚ
  marketCap : Option ℚ
  targetMeanPrice : Option ℚ
  pegRatio : Option ℚ
  currentRatio : Option ℚ
  enterpriseValue : Option ℚ
  ebitda : Option ℚ
  returnOnAssets : Option ℚ
  grossMargins : Option ℚ
  heldPercentInstitutions : Option ℚ
  currentPrice : Option ℚ
  regularMarketPrice : Option ℚ

/-- The rows of `stock.financials` used by the analysis; each row, when
present in the DataFrame index, is its values newest-first (the raw
delivery order), and `isEmpty` is the `financials.empty` flag. -/
structure Financials where
  totalRevenue : Option (List ℚ)
  costOfRevenue : Option (List ℚ)
  isEmpty : Bool

/-- The rows of `stock.balance_sheet` used by the analysis. -/
structure BalanceSheet where
  netReceivables : Option (List ℚ)
  accountsReceivable : Option (List ℚ)
  inventory : Option (List ℚ)
  isEmpty : Bool

/-- The rows of `stock.cashflow` used by the analysis. -/
structure Cashflow where
  freeCashFlow : Option (List ℚ)
  operatingCashFlow : Option (List ℚ)
  capitalExpenditure : Option (List ℚ)
  isEmpty : Bool

/-- `current_price = info.get('currentPrice', info.get('regularMarketPrice', 0))`. -/
def currentPriceOf (i : Info) : ℚ :=
  match i.currentPrice with
  | some v => v
  | none => match i.regularMarketPrice with
            | some v => v
            | none => 0

/-- `row.iloc[0]`: the first (most recent) element; raises `IndexError`
on an empty row. -/
def iloc0 (row : List ℚ) : Except Unit ℚ :=
  match row with
  | [] => .error ()
  | x :: _ => .ok x

/-- Decidable form of the branch condition `cagr >= 0.10` of the revenue
growth check, phrased over the rational base `end/start` and the integer
`k = len - 1`; `cagrPasses_iff` below proves it equal to the real
condition the source compares. -/
def cagrPasses (base : ℚ) (k : ℕ) : Bool :=
  decide (0 ≤ base ∧ (11 / 10 : ℚ) ^ k ≤ base)

/-- Check 1, `Rev Growth`:
```
revs = financials.loc['Total Revenue'].iloc[::-1]
if len(revs) > 1:
    cagr = (revs.iloc[-1] / revs.iloc[0]) ** (1 / (len(revs) - 1)) - 1
    if cagr >= 0.10: PASS ... else: FAIL ...
else: FAIL "N/A"
```
inside a `try/except` whose handler appends the same `"N/A"` check; the
division by zero (zero oldest revenue) and the comparison of a complex
power (negative ratio, fractional exponent) both raise and land in the
handler.  The argument is the raw (newest-first) row. -/
def check_rev_growth_row (raw : List ℚ) : Check × ℕ :=
  let revNA : Check × ℕ :=
    ({ step := "Rev Growth", status := "FAIL", val := .na, english := "No Data" }, 0)
  let revs := raw.reverse
  match revs with
  | [] => revNA
  | [_] => revNA
  | r0 :: r1 :: rest =>
      if r0 = 0 then revNA
      else
        let k := (r1 :: rest).length
        let rl := (r1 :: rest).getLast (List.cons_ne_nil _ _)
        let base := rl / r0
        if base < 0 ∧ k ≠ 1 then revNA
        else
          if cagrPasses base k then
            ({ step := "Rev Growth > 10%", status := "PASS", val := .cagrPct base k,
               english := "Sales growing fast." }, 1)
          else
            ({ step := "Rev Growth > 10%", status := "FAIL", val := .cagrPct base k,
               english := "Sales slow." }, 0)

/-- Check 1 including the `financials.loc['Total Revenue']` lookup, whose
`KeyError` on an absent row is caught by the same handler. -/
def check_rev_growth (totalRevenue : Option (List ℚ)) : Check × ℕ :=
  match totalRevenue with
  | none => ({ step := "Rev Growth", status := "FAIL", val := .na, english := "No Data" }, 0)
  | some raw => check_rev_growth_row raw

/-- Check 2, `P/E < 30`: `if pe and pe < 30: PASS f"{pe:.2f}" else: FAIL
f"{pe if pe else 'N/A'}"`. -/
def check_pe (pe : Option ℚ) : Check × ℕ :=
  match pe with
  | some v =>
      if v ≠ 0 ∧ v < 30 then
        ({ step := "P/E < 30", status := "PASS", val := .f2 v, english := "Fairly priced." }, 1)
      else
        ({ step := "P/E < 30", status := "FAIL",
           val := if v = 0 then .na else .raw v, english := "Expensive." }, 0)
  | none => ({ step := "P/E < 30", status := "FAIL", val := .na, english := "Expensive." }, 0)

/-- Check 3, `ROE > 10%`: `if roe and roe > 0.10: PASS f"{roe:.2f}" else:
FAIL f"{roe if roe else 'N/A'}"`. -/
def check_roe (roe : Option ℚ) : Check × ℕ :=
  match roe with
  | some v =>
      if v ≠ 0 ∧ 1 / 10 < v then
        ({ step := "ROE > 10%", status := "PASS", val := .f2 v, english := "High efficiency." }, 1)
      else
        ({ step := "ROE > 10%", status := "FAIL",
           val := if v = 0 then .na else .raw v, english := "Low efficiency." }, 0)
  | none => ({ step := "ROE > 10%", status := "FAIL", val := .na, english := "Low efficiency." }, 0)

/-- Check 4, `Debt/Eq < 1.0`: `if de is not None: ratio = de/100; ...`
— note the explicit `is not None` (a present zero is evaluated). -/
def check_de (de : Option ℚ) : Check × ℕ :=
  match de with
  | some v =>
      let ratio := v / 100
      if ratio < 1 then
        ({ step := "Debt/Eq < 1.0", status := "PASS", val := .f2 ratio, english := "Safe debt." }, 1)
      else
        ({ step := "Debt/Eq < 1.0", status := "FAIL", val := .f2 ratio, english := "High debt." }, 0)
  | none => ({ step := "Debt/Eq", status := "FAIL", val := .na, english := "No Data" }, 0)

/-- The `Plan B` lookup for free cash flow from the cashflow statement:
run only when `fcf is None and not cashflow.empty`, inside a
`try/except: pass` (an `IndexError` on an empty row leaves `fcf = None`). -/
def fcf_plan_b (cf : Cashflow) : Option ℚ :=
  match cf.freeCashFlow with
  | some row => match iloc0 row with
                | .ok v => some v
                | .error _ => none
  | none =>
      match cf.operatingCashFlow, cf.capitalExpenditure with
      | some r1, some r2 =>
          match iloc0 r1, iloc0 r2 with
          | .ok a, .ok b => some (a + b)
          | _, _ => none
      | _, _ => none

/-- Check 5, `FCF Yield > 3%`: the quote field, then Plan B from the
cashflow statement, then `if fcf and mcap: ... (fcf/mcap) > 0.03 ...`. -/
def check_fcf (fcf mcap : Option ℚ) (cf : Cashflow) : Check × ℕ :=
  let fcf2 : Option ℚ :=
    match fcf with
    | some v => some v
    | none => if cf.isEmpty then none else fcf_plan_b cf
  match fcf2, mcap with
  | some f, some m =>
      if f ≠ 0 ∧ m ≠ 0 then
        if 3 / 100 < f / m then
          ({ step := "FCF Yield > 3%", status := "PASS", val := .pct2 (f / m),
             english := "Real cash!" }, 1)
        else
          ({ step := "FCF Yield > 3%", status := "FAIL", val := .pct2 (f / m),
             english := "Low cash generation." }, 0)
      else ({ step := "FCF Yield", status := "FAIL", val := .na, english := "No Data" }, 0)
  | _, _ => ({ step := "FCF Yield", status := "FAIL", val := .na, english := "No Data" }, 0)

/-- Check 6, `Analyst Upside`: `if tgt and current_price: up = (tgt -
current_price)/current_price; up > 0.10 ...`. -/
def check_upside (tgt : Option ℚ) (cp : ℚ) : Check × ℕ :=
  match tgt with
  | some t =>
      if t ≠ 0 ∧ cp ≠ 0 then
        let up := (t - cp) / cp
        if 1 / 10 < up then
          ({ step := "Analyst Upside", status := "PASS", val := .plusPct1 up,
             english := "Analysts bullish." }, 1)
        else
          ({ step := "Analyst Upside", status := "FAIL", val := .pct1 up,
             english := "Analysts cautious." }, 0)
      else ({ step := "Analyst Upside", status := "FAIL", val := .na, english := "No Data" }, 0)
  | none => ({ step := "Analyst Upside", status := "FAIL", val := .na, english := "No Data" }, 0)

/-- Check 7, `PEG < 2`: `if peg and peg < 2.0: ...`. -/
def check_peg (peg : Option ℚ) : Check × ℕ :=
  match peg with
  | some v =>
      if v ≠ 0 ∧ v < 2 then
        ({ step := "PEG < 2", status := "PASS", val := .f2 v, english := "Undervalued growth." }, 1)
      else
        ({ step := "PEG < 2", status := "FAIL",
           val := if v = 0 then .na else .raw v, english := "Overvalued growth." }, 0)
  | none => ({ step := "PEG < 2", status := "FAIL", val := .na, english := "Overvalued growth." }, 0)

/-- Check 8, `Curr Ratio > 1.5`: `if curr and curr > 1.5: ...`. -/
def check_curr (curr : Option ℚ) : Check × ℕ :=
  match curr with
  | some v =>
      if v ≠ 0 ∧ 3 / 2 < v then
        ({ step := "Curr Ratio > 1.5", status := "PASS", val := .f2 v,
           english := "Safe liquidity." }, 1)
      else
        ({ step := "Curr Ratio > 1.5", status := "FAIL",
           val := if v = 0 then .na else .raw v, english := "Tight liquidity." }, 0)
  | none => ({ step := "Curr Ratio > 1.5", status := "FAIL", val := .na,
               english := "Tight liquidity." }, 0)

/-- Check 9, `EV/EBITDA < 20`: `if ev and ebitda: ev_ebitda = ev/ebitda; ...`. -/
def check_ev (ev ebitda : Option ℚ) : Check × ℕ :=
  match ev, ebitda with
  | some e, some b =>
      if e ≠ 0 ∧ b ≠ 0 then
        let r := e / b
        if r < 20 then
          ({ step := "EV/EBITDA < 20", status := "PASS", val := .f2 r, english := "Good value." }, 1)
        else
          ({ step := "EV/EBITDA < 20", status := "FAIL", val := .f2 r, english := "Overvalued." }, 0)
      else ({ step := "EV/EBITDA", status := "FAIL", val := .na, english := "No Data" }, 0)
  | _, _ => ({ step := "EV/EBITDA", status := "FAIL", val := .na, english := "No Data" }, 0)

/-- Check 10, `ROA > 5%`: `if roa and roa > 0.05: ...`. -/
def check_roa (roa : Option ℚ) : Check × ℕ :=
  match roa with
  | some v =>
      if v ≠ 0 ∧ 1 / 20 < v then
        ({ step := "ROA > 5%", status := "PASS", val := .pct2 v, english := "Efficient Assets." }, 1)
      else
        ({ step := "ROA > 5%", status := "FAIL",
           val := if v = 0 then .na else .raw v, english := "Inefficient Assets." }, 0)
  | none => ({ step := "ROA > 5%", status := "FAIL", val := .na,
               english := "Inefficient Assets." }, 0)

/-- Check 11, `Gross Mrg > 40%`: `if gm and gm > 0.40: ...`. -/
def check_gm (gm : Option ℚ) : Check × ℕ :=
  match gm with
  | some v =>
      if v ≠ 0 ∧ 2 / 5 < v then
        ({ step := "Gross Mrg > 40%", status := "PASS", val := .pct2 v,
           english := "High pricing power." }, 1)
      else
        ({ step := "Gross Mrg > 40%", status := "FAIL",
           val := if v = 0 then .na else .raw v, english := "Low margins." }, 0)
  | none => ({ step := "Gross Mrg > 40%", status := "FAIL", val := .na,
               english := "Low margins." }, 0)

/-- Check 12, `Inst. Hold > 30%`: `if inst and inst > 0.30: ...`. -/
def check_inst (inst : Option ℚ) : Check × ℕ :=
  match inst with
  | some v =>
      if v ≠ 0 ∧ 3 / 10 < v then
        ({ step := "Inst. Hold > 30%", status := "PASS", val := .pct2 v,
           english := "Big banks buying." }, 1)
      else
        ({ step := "Inst. Hold > 30%", status := "FAIL",
           val := if v = 0 then .na else .raw v, english := "Retail owned." }, 0)
  | none => ({ step := "Inst. Hold > 30%", status := "FAIL", val := .na,
               english := "Retail owned." }, 0)

/-- Check 13, `DSO < 90 Days`: receivables from `Net Receivables` (else
`Accounts Receivable`), revenue from `Total Revenue`, each the most recent
value; `if receivables and revenue: dso = (receivables/revenue)*365`; the
whole block is inside `try/except`, whose handler appends the
`"Error"`-valued check (an `IndexError` from `.iloc[0]` on an empty row
lands there). -/
def check_dso (bs : BalanceSheet) (fin : Financials) : Check × ℕ :=
  let dsoNA : Check × ℕ :=
    ({ step := "DSO (Client Risk)", status := "FAIL", val := .na,
       english := "Data Unavailable" }, 0)
  let body : Except Unit (Check × ℕ) := do
    if ¬bs.isEmpty ∧ ¬fin.isEmpty then
      let receivables ←
        match bs.netReceivables with
        | some row => do let v ← iloc0 row; pure (some v)
        | none =>
            match bs.accountsReceivable with
            | some row => do let v ← iloc0 row; pure (some v)
            | none => pure none
      let revenue ←
        match fin.totalRevenue with
        | some row => do let v ← iloc0 row; pure (some v)
        | none => pure none
      match receivables, revenue with
      | some r, some v =>
          if r ≠ 0 ∧ v ≠ 0 then
            let dso := r / v * 365
            if dso < 90 then
              pure ({ step := "DSO < 90 Days", status := "PASS", val := .days dso,
                      english := "Clients pay on time." }, 1)
            else
              pure ({ step := "DSO < 90 Days", status := "FAIL", val := .days dso,
                      english := "Clients delaying payment!" }, 0)
          else pure dsoNA
      | _, _ => pure dsoNA
    else pure dsoNA
  match body with
  | .ok r => r
  | .error _ =>
      ({ step := "DSO (Client Risk)", status := "FAIL", val := .errv,
         english := "Calc Error" }, 0)

/-- Check 14, `Inv Days < 150`: inventory from `Inventory`, cogs from
`Cost Of Revenue`; `inv_days = (inventory/cogs)*365`; same `try/except`
shape as the DSO check. -/
def check_inv (bs : BalanceSheet) (fin : Financials) : Check × ℕ :=
  let invNA : Check × ℕ :=
    ({ step := "Inv. Turnover", status := "FAIL", val := .na,
       english := "Data Unavailable" }, 0)
  let body : Except Unit (Check × ℕ) := do
    if ¬bs.isEmpty ∧ ¬fin.isEmpty then
      let inventory ←
        match bs.inventory with
        | some row => do let v ← iloc0 row; pure (some v)
        | none => pure none
      let cogs ←
        match fin.costOfRevenue with
        | some row => do let v ← iloc0 row; pure (some v)
        | none => pure none
      match inventory, cogs with
      | some iv, some cg =>
          if iv ≠ 0 ∧ cg ≠ 0 then
            let invDays := iv / cg * 365
            if invDays < 150 then
              pure ({ step := "Inv Days < 150", status := "PASS", val := .days invDays,
                      english := "Stock moves fast." }, 1)
            else
              pure ({ step := "Inv Days < 150", status := "FAIL", val := .days invDays,
                      english := "Stock stuck in warehouse!" }, 0)
          else pure invNA
      | _, _ => pure invNA
    else pure invNA
  match body with
  | .ok r => r
  | .error _ =>
      ({ step := "Inv. Turnover", status := "FAIL", val := .errv,
         english := "Calc Error" }, 0)

/-- Check 15, `Op Cash Flow > 0`: `if not cashflow.empty and 'Operating
Cash Flow' in cashflow.index: ocf = ....iloc[0]; if ocf > 0: ...`, inside
the same `try/except` shape. -/
def check_ocf (cf : Cashflow) : Check × ℕ :=
  let ocfNA : Check × ℕ :=
    ({ step := "Op Cash Flow", status := "FAIL", val := .na,
       english := "Data Unavailable" }, 0)
  let body : Except Unit (Check × ℕ) := do
    match cf.operatingCashFlow with
    | some row =>
        if ¬cf.isEmpty then
          let ocf ← iloc0 row
          if 0 < ocf then
            pure ({ step := "Op Cash Flow > 0", status := "PASS", val := .pos,
                    english := "Core biz generating cash." }, 1)
          else
            pure ({ step := "Op Cash Flow > 0", status := "FAIL", val := .neg,
                    english := "Burning cash!" }, 0)
        else pure ocfNA
    | none => pure ocfNA
  match body with
  | .ok r => r
  | .error _ =>
      ({ step := "Op Cash Flow", status := "FAIL", val := .errv,
         english := "Calc Error" }, 0)

/-- The 15 checks of `run_pro_analysis`, in table order, each paired with
the score increment its branch performs (`score += 1` occurs exactly in
the `PASS` branches of the source). -/
def proChecklist (info : Info) (fin : Financials) (bs : BalanceSheet)
    (cf : Cashflow) : List (Check × ℕ) :=
  [ check_rev_growth fin.totalRevenue,
    check_pe info.trailingPE,
    check_roe info.returnOnEquity,
    check_de info.debtToEquity,
    check_fcf info.freeCashflow info.marketCap cf,
    check_upside info.targetMeanPrice (currentPriceOf info),
    check_peg info.pegRatio,
    check_curr info.currentRatio,
    check_ev info.enterpriseValue info.ebitda,
    check_roa info.returnOnAssets,
    check_gm info.grossMargins,
    check_inst info.heldPercentInstitutions,
    check_dso bs fin,
    check_inv bs fin,
    check_ocf cf ]

/-- The checklist core of `run_pro_analysis`: the final `score` (summed
`score += 1` increments) and the `results` list, in order of appending. -/
def run_pro_analysis (info : Info) (fin : Financials) (bs : BalanceSheet)
    (cf : Cashflow) : ℕ × List Check :=
  let cs := proChecklist info fin bs cf
  (cs.foldl (fun acc c => acc + c.2) 0, cs.map (fun c => c.1))

/-- `analyze_ai_sentiment`: `news` is the list of headline titles
(`item.get('title', '')`, so a missing title is the empty string, skipped
by `if title:`); `polarity` is the pluggable TextBlob polarity scorer.
Returns the `(verdict, strength, message)` triple. -/
def analyze_ai_sentiment (news : List String) (polarity : String → ℚ) :
    String × String × String :=
  if news = [] then ("Neutral / No News", "#9ca3af", "No recent news found.")
  else
    let titles := (news.take 7).filter (fun t => t ≠ "")
    let count := titles.length
    if count = 0 then ("Neutral", "#9ca3af", "Could not analyze news.")
    else
      let avg := (titles.map polarity).sum / count
      if 1 / 20 < avg then ("Positive (Bullish) 🐂", "High", "News headlines are optimistic.")
      else if avg < -(1 / 20) then ("Negative (Bearish) 🐻", "Low", "News headlines are negative.")
      else ("Neutral 😐", "Med", "News is mixed.")

/-- `predict_future_price`: `closes` is the downloaded closing-price
series, `fitPredict` the Prophet fit-and-predict collaborator (its
`.error` is any model-fit exception; its `.ok` value is the `yhat`
column over history plus the 365*5-day horizon).  The whole body is
inside `try/except: return None, 0, 0`; an out-of-range `iloc[-365*5]`
(forecast shorter than 1825 rows) raises and lands in the handler. -/
def predict_future_price (closes : List ℚ)
    (fitPredict : List ℚ → Except Unit (List ℚ)) :
    Option (List ℚ) × ℚ × ℚ :=
  let body : Except Unit (Option (List ℚ) × ℚ × ℚ) := do
    if closes = [] ∨ closes.length < 100 then
      pure (none, 0, 0)
    else
      let forecast ← fitPredict closes
      if h : forecast.length < 365 * 5 ∨ forecast = [] then .error ()
      else
        let current := forecast.get ⟨forecast.length - 365 * 5, by
          rcases Nat.lt_or_ge (forecast.length) (365 * 5) with hlt | hge
          · exact absurd (Or.inl hlt) h
          · have : forecast ≠ [] := fun he => h (Or.inr he)
            have hpos : 0 < forecast.length := List.length_pos.mpr this
            omega⟩
        let futureP := forecast.getLast (fun he => h (Or.inr he))
        let roi := (futureP - current) / current * 100
        pure (some forecast, roi, futureP)
  match body with
  | .ok r => r
  | .error _ => (none, 0, 0)

/-- The verdict tier of the score box in `main_app` (`score-high`,
`score-med`, `score-low`). -/
inductive Tier where
  | High
  | Med
  | Low
deriving DecidableEq

/-- The score classifier of `main_app`:
`if score >= 12: high; elif score >= 8: med; else: low`. -/
def scoreTier (score : ℕ) : Tier :=
  if 12 ≤ score then .High else if 8 ≤ score then .Med else .Low

/-- The verdict string attached to each tier in `main_app`. -/
def scoreVerdict (score : ℕ) : String :=
  if 12 ≤ score then "STRONG BUY (Clean)"
  else if 8 ≤ score then "CAUTIOUS / HOLD"
  else "HIGH RISK / AVOID"

/-- The classifier following the spec's words (§4.4): High if
`score/maximum ≥ 0.8`, Medium if `score/maximum ≥ 0.5`, else Low —
written with the equivalent integer comparisons `5*score ≥ 4*maximum`
and `2*score ≥ maximum`. -/
def tierSpec (score maximum : ℕ) : Tier :=
  if 4 * maximum ≤ 5 * score then .High
  else if maximum ≤ 2 * score then .Med
  else .Low

/-- Modelled from the spec: the observed 5-rule checklist variant is not in
`src/`; per §4.4/§9 it uses the absolute top-tier cutoff `3` (of 5) —
"inconsistent absolute cutoffs across its variants — 3/5, 7/8, 12/15".
`variant5Top score` states that the 5-rule variant places `score` in its
top tier. -/
def variant5Top (score : ℕ) : Bool :=
  decide (3 ≤ score)

/-- Modelled from the spec: `GatePolicy` (§4.3) is not in `src/` (the code
in `src/` only implements the exhaustive policy).  Per the spec's words it
"evaluates rules in table order and stops at the first Fail"; the
resulting scorecard "contains only the checks evaluated up to and
including the first failure (later metrics are never computed)".  Rules
are thunks so that non-evaluation is observable as independence from the
suppressed rule. -/
def gatePolicy : List (Unit → Check) → List Check
  | [] => []
  | r :: rest =>
      let c := r ()
      if c.status = "FAIL" then [c] else c :: gatePolicy rest

/-- A check/increment pair is well-formed: its status is one of the two
strings the source writes, and the `score += 1` increment occurred exactly
on the `PASS` branch. -/
def goodPair (p : Check × ℕ) : Prop :=
  (p.1.status = "PASS" ∧ p.2 = 1) ∨ (p.1.status = "FAIL" ∧ p.2 = 0)

/-- A quote dictionary with every scalar field absent. -/
def emptyInfo : Info :=
  ⟨none, none, none, none, none, none, none, none, none, none, none, none, none, none, none⟩

/-- An empty income statement. -/
def emptyFin : Financials := ⟨none, none, true⟩

/-- An empty balance sheet. -/
def emptyBS : BalanceSheet := ⟨none, none, none, true⟩

/-- An empty cashflow statement. -/
def emptyCF : Cashflow := ⟨none, none, none, true⟩

/-! ## Structural lemmas: every check appends exactly one result, with
status `"PASS"` or `"FAIL"`, and increments the score exactly on `PASS`. -/

theorem check_rev_growth_good (tr : Option (List ℚ)) : goodPair (check_rev_growth tr) := by
  rcases tr with _ | raw
  · simp [check_rev_growth, goodPair]
  · simp only [check_rev_growth, check_rev_growth_row]
    rcases raw.reverse with _ | ⟨r0, _ | ⟨r1, rest⟩⟩ <;>
      simp only [goodPair] <;> (try split_ifs) <;> simp

theorem check_pe_good (pe : Option ℚ) : goodPair (check_pe pe) := by
  rcases pe with _ | v <;> simp only [check_pe, goodPair] <;> (try split_ifs) <;> simp

theorem check_roe_good (roe : Option ℚ) : goodPair (check_roe roe) := by
  rcases roe with _ | v <;> simp only [check_roe, goodPair] <;> (try split_ifs) <;> simp

theorem check_de_good (de : Option ℚ) : goodPair (check_de de) := by
  rcases de with _ | v <;> simp only [check_de, goodPair] <;> (try split_ifs) <;> simp

theorem check_fcf_good (fcf mcap : Option ℚ) (cf : Cashflow) :
    goodPair (check_fcf fcf mcap cf) := by
  rcases fcf with _ | f
  · rcases hce : cf.isEmpty <;> rcases hb : fcf_plan_b cf with _ | v <;>
      rcases mcap with _ | m <;>
      simp [check_fcf, hce, hb, goodPair] <;> (try split_ifs) <;> simp_all
  · rcases mcap with _ | m <;> simp only [check_fcf, goodPair] <;> (try split_ifs) <;> simp

theorem check_upside_good (tgt : Option ℚ) (cp : ℚ) : goodPair (check_upside tgt cp) := by
  rcases tgt with _ | t <;> simp only [check_upside, goodPair] <;> (try split_ifs) <;> simp

theorem check_peg_good (peg : Option ℚ) : goodPair (check_peg peg) := by
  rcases peg with _ | v <;> simp only [check_peg, goodPair] <;> (try split_ifs) <;> simp

theorem check_curr_good (curr : Option ℚ) : goodPair (check_curr curr) := by
  rcases curr with _ | v <;> simp only [check_curr, goodPair] <;> (try split_ifs) <;> simp

theorem check_ev_good (ev ebitda : Option ℚ) : goodPair (check_ev ev ebitda) := by
  rcases ev with _ | e <;> rcases ebitda with _ | b <;>
    simp only [check_ev, goodPair] <;> (try split_ifs) <;> simp

theorem check_roa_good (roa : Option ℚ) : goodPair (check_roa roa) := by
  rcases roa with _ | v <;> simp only [check_roa, goodPair] <;> (try split_ifs) <;> simp

theorem check_gm_good (gm : Option ℚ) : goodPair (check_gm gm) := by
  rcases gm with _ | v <;> simp only [check_gm, goodPair] <;> (try split_ifs) <;> simp

theorem check_inst_good (inst : Option ℚ) : goodPair (check_inst inst) := by
  rcases inst with _ | v <;> simp only [check_inst, goodPair] <;> (try split_ifs) <;> simp

theorem check_dso_good (bs : BalanceSheet) (fin : Financials) :
    goodPair (check_dso bs fin) := by
  simp only [check_dso]
  rcases bs with ⟨nr, ar, inv, be⟩
  rcases fin with ⟨trv, cgr, fe⟩
  rcases be <;> rcases fe <;>
    rcases nr with _ | ⟨_ | ⟨r, _⟩⟩ <;> rcases ar with _ | ⟨_ | ⟨a, _⟩⟩ <;>
    rcases trv with _ | ⟨_ | ⟨v, _⟩⟩ <;>
    simp [iloc0, Except.bind, goodPair, bind, pure, Except.pure] <;> (try split_ifs) <;> (try simp)

theorem check_inv_good (bs : BalanceSheet) (fin : Financials) :
    goodPair (check_inv bs fin) := by
  simp only [check_inv]
  rcases bs with ⟨nr, ar, inv, be⟩
  rcases fin with ⟨trv, cgr, fe⟩
  rcases be <;> rcases fe <;>
    rcases inv with _ | ⟨_ | ⟨i, _⟩⟩ <;> rcases cgr with _ | ⟨_ | ⟨c, _⟩⟩ <;>
    simp [iloc0, Except.bind, goodPair, bind, pure, Except.pure] <;> (try split_ifs) <;> (try simp)

theorem check_ocf_good (cf : Cashflow) : goodPair (check_ocf cf) := by
  simp only [check_ocf]
  rcases cf with ⟨f, ocf, cap, ce⟩
  rcases ce <;> rcases ocf with _ | ⟨_ | ⟨v, _⟩⟩ <;>
    simp [iloc0, Except.bind, goodPair, bind, pure, Except.pure] <;> (try split_ifs) <;> (try simp)

theorem proChecklist_good (info : Info) (fin : Financials) (bs : BalanceSheet)
    (cf : Cashflow) : ∀ p ∈ proChecklist info fin bs cf, goodPair p := by
  intro p hp
  simp only [proChecklist, List.mem_cons, List.not_mem_nil, or_false] at hp
  rcases hp with rfl | rfl | rfl | rfl | rfl | rfl | rfl | rfl | rfl | rfl | rfl | rfl | rfl | rfl | rfl
  · exact check_rev_growth_good _
  · exact check_pe_good _
  · exact check_roe_good _
  · exact check_de_good _
  · exact check_fcf_good _ _ _
  · exact check_upside_good _ _
  · exact check_peg_good _
  · exact check_curr_good _
  · exact check_ev_good _ _
  · exact check_roa_good _
  · exact check_gm_good _
  · exact check_inst_good _
  · exact check_dso_good _ _
  · exact check_inv_good _ _
  · exact check_ocf_good _

theorem foldl_add_shift (l : List (Check × ℕ)) (n : ℕ) :
    l.foldl (fun acc c => acc + c.2) n = n + l.foldl (fun acc c => acc + c.2) 0 := by
  induction l generalizing n with
  | nil => simp
  | cons p t ih =>
      simp only [List.foldl_cons]
      rw [ih (n + p.2), ih (0 + p.2)]
      omega

theorem score_eq_countP (l : List (Check × ℕ)) (h : ∀ p ∈ l, goodPair p) :
    l.foldl (fun acc c => acc + c.2) 0 =
      (l.map (fun c => c.1)).countP (fun c => c.status == "PASS") := by
  induction l with
  | nil => simp
  | cons p t ih =>
      have hp := h p (by simp)
      have ht := ih (fun q hq => h q (by simp [hq]))
      simp only [List.foldl_cons, List.map_cons, List.countP_cons]
      rw [foldl_add_shift, ht]
      rcases hp with ⟨hs, hn⟩ | ⟨hs, hn⟩ <;> rw [hs, hn] <;> (try simp) <;> omega

/-! ## Claims -/

/-- C8: under the exhaustive policy of `run_pro_analysis`, every input
snapshot yields exactly one check per table rule (15 checks), and the
returned score equals the count of checks with status `PASS`. -/
theorem claim_C8_aggregate_policy (info : Info) (fin : Financials)
    (bs : BalanceSheet) (cf : Cashflow) :
    (run_pro_analysis info fin bs cf).2.length = 15 ∧
    (run_pro_analysis info fin bs cf).1 =
      (run_pro_analysis info fin bs cf).2.countP (fun c => c.status == "PASS") := by
  constructor
  · simp [run_pro_analysis, proChecklist]
  · simpa only [run_pro_analysis] using
      score_eq_countP _ (proChecklist_good info fin bs cf)

/-- C1 counterexample: the claim says a missing metric yields check status
Unknown and "never Fail"; but the check built from a missing `trailingPE`
has status `"FAIL"` (with display `"N/A"`). -/
theorem claim_C1_counterexample :
    (check_pe none).1.status = "FAIL" ∧ (check_pe none).1.val = PyVal.na := by
  exact ⟨rfl, rfl⟩

/-- C1 amended: a check's status is always `"PASS"` or `"FAIL"` (the code
has no Unknown status), and on a snapshot with every metric missing every
check has status `"FAIL"` with display `"N/A"` — a missing metric is never
a `PASS`. -/
theorem claim_C1_missing_is_fail :
    (∀ info fin bs cf, ∀ c ∈ (run_pro_analysis info fin bs cf).2,
        c.status = "PASS" ∨ c.status = "FAIL") ∧
    (∀ c ∈ (run_pro_analysis emptyInfo emptyFin emptyBS emptyCF).2,
        c.status = "FAIL" ∧ c.val = PyVal.na) := by
  constructor
  · intro info fin bs cf c hc
    simp only [run_pro_analysis, List.mem_map] at hc
    obtain ⟨p, hp, rfl⟩ := hc
    rcases proChecklist_good info fin bs cf p hp with ⟨hs, _⟩ | ⟨hs, _⟩
    · exact Or.inl hs
    · exact Or.inr hs
  · decide

/-- Witness for C1: the `P/E < 30` check of the all-missing snapshot is a
member of its results, and the theorem applies to it. -/
theorem claim_C1_missing_is_fail_witness :
    ({ step := "P/E < 30", status := "FAIL", val := PyVal.na,
       english := "Expensive." } : Check) ∈
      (run_pro_analysis emptyInfo emptyFin emptyBS emptyCF).2 ∧
    ({ step := "P/E < 30", status := "FAIL", val := PyVal.na,
       english := "Expensive." } : Check).status = "FAIL" :=
  ⟨by decide, (claim_C1_missing_is_fail.2 _ (by decide)).1⟩

/-- C2 (spec-modelled `GatePolicy`): with rule outcomes Pass, Fail, Pass in
that order, the scorecard is exactly the first two checks — the Pass and
the Fail — so it has exactly 2 checks, and the result does not depend on
the third rule, which is never forced. -/
theorem claim_C2_gate_policy (r1 r2 r3 : Unit → Check)
    (h1 : (r1 ()).status = "PASS") (h2 : (r2 ()).status = "FAIL") :
    gatePolicy [r1, r2, r3] = [r1 (), r2 ()] ∧
    (gatePolicy [r1, r2, r3]).length = 2 := by
  have hne : ¬(r1 ()).status = "FAIL" := by rw [h1]; decide
  have h : gatePolicy [r1, r2, r3] = [r1 (), r2 ()] := by
    simp [gatePolicy, hne, h2]
  exact ⟨h, by rw [h]; rfl⟩

/-- Witness for C2 at concrete Pass/Fail/Pass rule thunks. -/
theorem claim_C2_gate_policy_witness :
    gatePolicy [fun _ => ⟨"A", "PASS", .na, ""⟩, fun _ => ⟨"B", "FAIL", .na, ""⟩,
        fun _ => ⟨"C", "PASS", .na, ""⟩] =
      [⟨"A", "PASS", .na, ""⟩, ⟨"B", "FAIL", .na, ""⟩] :=
  (claim_C2_gate_policy _ _ _ rfl rfl).1

/-- C3 counterexample: the observed 5-rule variant (spec-modelled,
absolute cutoff 3 of 5) places score 3 in its top tier, but the
normalized-fraction rule does not (`3/5 = 0.6 < 0.8` gives Medium) — the
"same rule" does not hold at maximum = 5. -/
theorem claim_C3_counterexample :
    variant5Top 3 = true ∧ tierSpec 3 5 ≠ Tier.High ∧ tierSpec 3 5 = Tier.Med := by
  decide

/-- C3 amended: at maximum = 15 — the classifier actually in the code —
the tier is exactly the normalized-fraction rule: High iff
`score/15 ≥ 0.8`, Medium iff `≥ 0.5`, else Low, for every integer score. -/
theorem claim_C3_normalized_at_15 (score : ℕ) :
    scoreTier score = tierSpec score 15 := by
  simp only [scoreTier, tierSpec]
  split_ifs <;> first | rfl | omega

/-- C4 counterexample: on an empty headline list the sentiment label is
the string `"Neutral / No News"`, not a distinct `"Unavailable"` value as
the claim states. -/
theorem claim_C4_counterexample :
    (analyze_ai_sentiment [] (fun _ => 0)).1 = "Neutral / No News" ∧
    "Neutral / No News" ≠ "Unavailable" := by
  exact ⟨rfl, by decide⟩

/-- C4 amended: an empty headline list yields the label
`"Neutral / No News"` and a non-empty list with zero scored headlines
yields `"Neutral"`; both differ from the average-based neutral label
`"Neutral 😐"` but are Neutral-family labels — no reachable label equals
`"Unavailable"`. -/
theorem claim_C4_neutral_labels :
    (∀ pol : String → ℚ, (analyze_ai_sentiment [] pol).1 = "Neutral / No News") ∧
    (∀ (news : List String) (pol : String → ℚ), news ≠ [] →
        (∀ t ∈ news.take 7, t = "") →
        (analyze_ai_sentiment news pol).1 = "Neutral") ∧
    (∀ (news : List String) (pol : String → ℚ),
        (analyze_ai_sentiment news pol).1 ≠ "Unavailable") ∧
    "Neutral / No News" ≠ "Neutral 😐" ∧ "Neutral" ≠ "Neutral 😐" := by
  refine ⟨?_, ?_, ?_, by decide, by decide⟩
  · intro pol
    simp [analyze_ai_sentiment]
  · intro news pol hne hz
    have hfe : (news.take 7).filter (fun t => t ≠ "") = [] := by
      rw [List.filter_eq_nil]
      intro a ha
      simp [hz a ha]
    simp [analyze_ai_sentiment, hne, hfe]
    rw [if_pos hz]
  · intro news pol
    simp only [analyze_ai_sentiment]
    split_ifs <;> decide

/-- Witness for C4: a single blank-titled item is a non-empty list with
zero scored headlines, and its label is `"Neutral"`. -/
theorem claim_C4_neutral_labels_witness :
    ([""] : List String) ≠ [] ∧
    (∀ t ∈ ([""] : List String).take 7, t = "") ∧
    (analyze_ai_sentiment [""] (fun _ => 0)).1 = "Neutral" :=
  ⟨by decide, by decide,
    claim_C4_neutral_labels.2.1 [""] (fun _ => 0) (by decide) (by decide)⟩

/-- C9: an empty price series, a series shorter than 100 points, or a
model-fit error yields the absent result `(None, 0, 0)` — no forecast and
no extrapolated values (the embedding is total, so no exception reaches
the caller). -/
theorem claim_C9_forecast_guard (closes : List ℚ)
    (fit : List ℚ → Except Unit (List ℚ))
    (h : closes = [] ∨ closes.length < 100 ∨ fit closes = .error ()) :
    predict_future_price closes fit = (none, 0, 0) := by
  simp only [predict_future_price]
  by_cases hc : closes = [] ∨ closes.length < 100
  · rw [if_pos hc]
    rfl
  · have herr : fit closes = .error () := by
      rcases h with h | h | h
      · exact absurd (Or.inl h) hc
      · exact absurd (Or.inr h) hc
      · exact h
    rw [if_neg hc]
    simp [herr, bind, Except.bind]

/-- Witness for C9: a 99-point series is rejected. -/
theorem claim_C9_forecast_guard_witness :
    ((List.replicate 99 (1 : ℚ)).length < 100) ∧
    predict_future_price (List.replicate 99 (1 : ℚ)) (fun _ => .ok []) =
      (none, 0, 0) :=
  ⟨by simp, claim_C9_forecast_guard _ _ (Or.inr (Or.inl (by simp)))⟩

/-- C10: a scalar quote field equal to 0 behaves exactly like a missing
field for the P/E, ROE, PEG, current-ratio, ROA, gross-margin,
institutional-holding and free-cash-flow checks (the check is the `"N/A"`
fail and no comparison is evaluated), whereas a present `debtToEquity` of
0 is evaluated against its threshold (0/100 < 1.0, a `PASS`). -/
theorem claim_C10_zero_as_missing :
    check_pe (some 0) = check_pe none ∧ (check_pe none).1.val = PyVal.na ∧
    check_roe (some 0) = check_roe none ∧ (check_roe none).1.val = PyVal.na ∧
    check_peg (some 0) = check_peg none ∧ (check_peg none).1.val = PyVal.na ∧
    check_curr (some 0) = check_curr none ∧ (check_curr none).1.val = PyVal.na ∧
    check_roa (some 0) = check_roa none ∧ (check_roa none).1.val = PyVal.na ∧
    check_gm (some 0) = check_gm none ∧ (check_gm none).1.val = PyVal.na ∧
    check_inst (some 0) = check_inst none ∧ (check_inst none).1.val = PyVal.na ∧
    (∀ (mcap : Option ℚ) (cf : Cashflow),
        check_fcf (some 0) mcap cf = check_fcf none mcap emptyCF ∧
        (check_fcf (some 0) mcap cf).1.val = PyVal.na) ∧
    (check_de (some 0)).1.status = "PASS" ∧
    (check_de (some 0)).1.val = PyVal.f2 0 ∧
    (check_de none).1.status = "FAIL" ∧ (check_de none).1.val = PyVal.na := by
  refine ⟨by norm_num [check_pe], by norm_num [check_pe], by norm_num [check_roe],
    by norm_num [check_roe], by norm_num [check_peg], by norm_num [check_peg],
    by norm_num [check_curr], by norm_num [check_curr], by norm_num [check_roa],
    by norm_num [check_roa], by norm_num [check_gm], by norm_num [check_gm],
    by norm_num [check_inst], by norm_num [check_inst], ?_,
    by norm_num [check_de], by norm_num [check_de], by norm_num [check_de],
    by norm_num [check_de]⟩
  intro mcap cf
  rcases mcap with _ | m <;> simp [check_fcf, emptyCF]

/-- Faithfulness of the decidable branch condition `cagrPasses` to the real
comparison `cagr >= 0.10` of the source (`cagr` being `base ** (1/k) - 1`,
where a negative base reaches the comparison only when `k = 1`). -/
theorem cagrPasses_iff (base : ℚ) (k : ℕ) (hk : k ≠ 0) :
    cagrPasses base k = true ↔
      (1 : ℝ)/10 ≤ (if base < 0 then (base : ℝ) else (base : ℝ) ^ ((1 : ℝ)/(k : ℝ))) - 1 := by
  unfold cagrPasses
  rw [decide_eq_true_eq]
  by_cases hb : base < 0
  · rw [if_pos hb]
    constructor
    · rintro ⟨h0, -⟩
      exact absurd hb (not_lt.mpr h0)
    · intro h
      exfalso
      have hb' : (base : ℝ) < 0 := by exact_mod_cast hb
      linarith
  · rw [if_neg hb]
    push_neg at hb
    have hb' : (0 : ℝ) ≤ (base : ℝ) := by exact_mod_cast hb
    have hz : (0 : ℝ) < (k : ℝ) := by exact_mod_cast Nat.pos_of_ne_zero hk
    have hcast : (((11/10 : ℚ)^k : ℚ) : ℝ) = ((11 : ℝ)/10)^k := by push_cast; ring
    have hiff := Real.le_rpow_inv_iff_of_pos (show (0 : ℝ) ≤ 11/10 by norm_num) hb' hz
    rw [Real.rpow_natCast] at hiff
    have h2 : ((11 : ℝ)/10)^k ≤ (base : ℝ) ↔ (11/10 : ℚ)^k ≤ base := by
      rw [← hcast]
      exact Rat.cast_le
    have key := hiff.trans h2
    rw [show (1 : ℝ)/(k : ℝ) = ((k : ℝ))⁻¹ from one_div _]
    constructor
    · rintro ⟨-, h⟩
      have := key.mpr h
      linarith
    · intro h
      exact ⟨hb, key.mp (by linarith)⟩

/-- C5 counterexample: the Rev Growth comparison is `>=`, not strict: on
the ordered two-point series `[100, 110]` the computed CAGR
`(110/100) ** (1/1) - 1` is exactly the threshold `0.10`, and the check
Passes — a value exactly at the threshold is not a Fail on this rule. -/
theorem claim_C5_counterexample :
    (check_rev_growth_row (([100, 110] : List ℚ)).reverse).1.status = "PASS" ∧
    (check_rev_growth_row (([100, 110] : List ℚ)).reverse).1.val = PyVal.cagrPct (11/10) 1 ∧
    ((11/10 : ℝ)) ^ ((1 : ℝ)/((1 : ℕ) : ℝ)) - 1 = 1/10 := by
  refine ⟨?_, ?_, ?_⟩
  · norm_num [check_rev_growth_row, cagrPasses]
  · norm_num [check_rev_growth_row, cagrPasses]
  · rw [Nat.cast_one, show (1 : ℝ)/1 = 1 by norm_num, Real.rpow_one]
    norm_num

/-- C5 amended: every checklist comparison except Rev Growth is strict —
a metric value exactly at the rule's threshold yields `"FAIL"` — while the
Rev Growth rule uses `>=` and Passes at exactly 10%. -/
theorem claim_C5_strict_except_rev_growth :
    (check_pe (some 30)).1.status = "FAIL" ∧
    (check_roe (some (1/10))).1.status = "FAIL" ∧
    (check_de (some 100)).1.status = "FAIL" ∧
    (check_fcf (some 3) (some 100) emptyCF).1.status = "FAIL" ∧
    (check_upside (some 110) 100).1.status = "FAIL" ∧
    (check_peg (some 2)).1.status = "FAIL" ∧
    (check_curr (some (3/2))).1.status = "FAIL" ∧
    (check_ev (some 2000) (some 100)).1.status = "FAIL" ∧
    (check_roa (some (1/20))).1.status = "FAIL" ∧
    (check_gm (some (2/5))).1.status = "FAIL" ∧
    (check_inst (some (3/10))).1.status = "FAIL" ∧
    (check_dso ⟨some [90], none, none, false⟩ ⟨some [365], none, false⟩).1.status = "FAIL" ∧
    (check_inv ⟨none, none, some [150], false⟩ ⟨none, some [365], false⟩).1.status = "FAIL" ∧
    (check_ocf ⟨none, some [0], none, false⟩).1.status = "FAIL" ∧
    (check_rev_growth (some ([100, 110] : List ℚ).reverse)).1.status = "PASS" := by
  refine ⟨by norm_num [check_pe], by norm_num [check_roe], by norm_num [check_de],
    by norm_num [check_fcf], by norm_num [check_upside], by norm_num [check_peg],
    by norm_num [check_curr], by norm_num [check_ev], by norm_num [check_roa],
    by norm_num [check_gm], by norm_num [check_inst],
    by norm_num [check_dso, iloc0, bind, Except.bind, pure, Except.pure],
    by norm_num [check_inv, iloc0, bind, Except.bind, pure, Except.pure],
    by norm_num [check_ocf, iloc0, bind, Except.bind, pure, Except.pure],
    by norm_num [check_rev_growth, check_rev_growth_row, cagrPasses]⟩

/-- C6 counterexample: the ordered series `[-100, -110]` has a
non-positive (negative) first element, yet the check is not the Unknown/
`"N/A"` result: the ratio is `1.1`, the exponent is the integer `1`, the
CAGR is computed as `0.10` and the check even Passes. -/
theorem claim_C6_counterexample :
    ([-100, -110] : List ℚ).headI ≤ 0 ∧ 2 ≤ ([-100, -110] : List ℚ).length ∧
    (check_rev_growth (some ([-100, -110] : List ℚ).reverse)).1.status = "PASS" ∧
    (check_rev_growth (some ([-100, -110] : List ℚ).reverse)).1.val ≠ PyVal.na := by
  refine ⟨by norm_num, by norm_num, ?_, ?_⟩
  · norm_num [check_rev_growth, check_rev_growth_row, cagrPasses]
  · have hv : (check_rev_growth (some ([-100, -110] : List ℚ).reverse)).1.val =
        PyVal.cagrPct (11/10) 1 := by
      norm_num [check_rev_growth, check_rev_growth_row, cagrPasses]
    rw [hv]
    decide

/-- C6 amended: the check yields the `"N/A"` result — without raising —
when the series has fewer than 2 points, when its first (oldest) element
is zero (division by zero), or when the ratio end/start is negative with
at least 3 points (fractional power of a negative base); but a
non-positive first element alone does not guarantee `"N/A"`: with exactly
two points, or when the ratio is positive, the value is computed and
compared normally. -/
theorem claim_C6_na_guard :
    (∀ o : List ℚ, o.length < 2 →
        check_rev_growth (some o.reverse) =
          ({ step := "Rev Growth", status := "FAIL", val := PyVal.na,
             english := "No Data" }, 0)) ∧
    (∀ t : List ℚ, t ≠ [] →
        check_rev_growth (some ((0 :: t) : List ℚ).reverse) =
          ({ step := "Rev Growth", status := "FAIL", val := PyVal.na,
             english := "No Data" }, 0)) ∧
    (∀ (a b : ℚ) (t : List ℚ), t ≠ [] → b / a < 0 →
        check_rev_growth (some ((a :: (t ++ [b])) : List ℚ).reverse) =
          ({ step := "Rev Growth", status := "FAIL", val := PyVal.na,
             english := "No Data" }, 0)) := by
  refine ⟨?_, ?_, ?_⟩
  · intro o h
    rcases o with _ | ⟨a, _ | ⟨b, t⟩⟩
    · rfl
    · rfl
    · simp only [List.length_cons] at h
      omega
  · intro t ht
    rcases t with _ | ⟨b, t'⟩
    · exact absurd rfl ht
    · simp only [check_rev_growth, check_rev_growth_row, List.reverse_reverse]
      norm_num
  · intro a b t ht hneg
    rcases t with _ | ⟨t0, t'⟩
    · exact absurd rfl ht
    · have ha : a ≠ 0 := by
        intro h
        rw [h, div_zero] at hneg
        exact absurd hneg (lt_irrefl 0)
      have hlast : (t0 :: (t' ++ [b])).getLast (List.cons_ne_nil _ _) = b := by simp
      simp only [check_rev_growth, check_rev_growth_row, List.reverse_reverse,
        List.cons_append]
      rw [if_neg ha]
      simp only [hlast]
      rw [if_pos ⟨hneg, by simp⟩]

/-- Witness for C6: a one-point series is rejected with the `"N/A"` check. -/
theorem claim_C6_na_guard_witness :
    ([100] : List ℚ).length < 2 ∧
    check_rev_growth (some ([100] : List ℚ).reverse) =
      ({ step := "Rev Growth", status := "FAIL", val := PyVal.na,
         english := "No Data" }, 0) :=
  ⟨by norm_num, claim_C6_na_guard.1 [100] (by norm_num)⟩

/-- C7 counterexample: the series `[100, 50, -60]` has length ≥ 2 and a
strictly positive start, yet the check does not produce the CAGR formula
value: the ratio `-60/100` is negative, its fractional power is complex,
and the caught comparison error yields the `"N/A"` result instead. -/
theorem claim_C7_counterexample :
    (0 : ℚ) < 100 ∧ 2 ≤ ([100, 50, -60] : List ℚ).length ∧
    (check_rev_growth (some ([100, 50, -60] : List ℚ).reverse)).1.val = PyVal.na := by
  refine ⟨by norm_num, by norm_num, ?_⟩
  norm_num [check_rev_growth, check_rev_growth_row, List.getLast]

/-- C7 amended: for every ordered series with at least 2 points, a
strictly positive start and a non-negative end/start ratio, the check
displays exactly `(end/start) ** (1/(n-1)) - 1`; in particular on
`[100, 110, 121, 133.1]` the base is `1331/1000` with exponent `1/3`, and
the displayed real number `(1331/1000) ** (1/3) - 1` is within `1e-9` of
`0.10` (it is `0.10` exactly). -/
theorem claim_C7_cagr_formula :
    (∀ (a b : ℚ) (t : List ℚ), 0 < a → 0 ≤ b / a →
        (check_rev_growth (some ((a :: (t ++ [b])) : List ℚ).reverse)).1.val =
          PyVal.cagrPct (b / a) (t.length + 1)) ∧
    (check_rev_growth (some ([100, 110, 121, 133.1] : List ℚ).reverse)).1.val =
      PyVal.cagrPct (1331/1000) 3 ∧
    |(((1331/1000 : ℚ) : ℝ) ^ ((1 : ℝ)/((3 : ℕ) : ℝ)) - 1) - 1/10| ≤ 1/1000000000 := by
  refine ⟨?_, ?_, ?_⟩
  · intro a b t ha hab
    rcases t with _ | ⟨t0, t'⟩
    · have hlast : ([b] : List ℚ).getLast (List.cons_ne_nil _ _) = b := by simp
      simp only [check_rev_growth, check_rev_growth_row, List.reverse_reverse,
        List.nil_append]
      rw [if_neg (ne_of_gt ha)]
      simp only [hlast]
      rw [if_neg (by
        rintro ⟨-, hk⟩
        exact hk (by simp))]
      split_ifs <;> simp
    · have hlast : (t0 :: (t' ++ [b])).getLast (List.cons_ne_nil _ _) = b := by simp
      simp only [check_rev_growth, check_rev_growth_row, List.reverse_reverse,
        List.cons_append]
      rw [if_neg (ne_of_gt ha)]
      simp only [hlast]
      rw [if_neg (by
        rintro ⟨hlt, -⟩
        exact absurd hlt (not_lt.mpr hab))]
      split_ifs <;> simp <;> omega
  · norm_num [check_rev_growth, check_rev_growth_row, cagrPasses]
  · have h1 : ((1331/1000 : ℚ) : ℝ) = (11/10 : ℝ)^(3 : ℕ) := by norm_num
    rw [h1, one_div, Real.pow_rpow_inv_natCast (by norm_num) (by norm_num)]
    norm_num

/-- Witness for C7 at the spec's example series (`133.1 = 1331/10`). -/
theorem claim_C7_cagr_formula_witness :
    (0 : ℚ) < 100 ∧ (0 : ℚ) ≤ (1331/10) / 100 ∧
    (check_rev_growth (some ((100 :: ([110, 121] ++ [1331/10])) : List ℚ).reverse)).1.val =
      PyVal.cagrPct ((1331/10) / 100) (([110, 121] : List ℚ).length + 1) :=
  ⟨by norm_num, by norm_num,
    claim_C7_cagr_formula.1 100 (1331/10) [110, 121] (by norm_num) (by norm_num)⟩

end StockAnalyzer
